import Mathlib

/-
Shallow embedding of the YouTube transcript/search microservice (src/main.py):
the transcript retrieval retry/fallback pipeline (`fetch_transcript_with_retry`),
the video-id extractor (`extract_video_id`), and the cached cursor-pagination
search endpoint (`search_youtube`).  Pure data is translated directly; the
external collaborators (youtube_transcript_api, yt-dlp) are modelled as
explicit oracles indexed by the attempt number, and the mutable TTL cache as an
association list threaded through the endpoint.  Side effects without
observable influence on results (logging, User-Agent header rotation, thread
pools) are not modelled; `time.sleep(1)` is modelled by counting pauses.
-/

namespace YT

/-! ## Identity extractor (`extract_video_id`, src/main.py lines 37-47)

The first regex `(?:v=|/v/|youtu\.be/|/embed/)([a-zA-Z0-9_-]{11})` is embedded
as a left-to-right scan: at each position, try the alternation's markers in
order; a marker match must be followed by 11 id-characters.  The second regex
`^([a-zA-Z0-9_-]{11})$` matches the whole input, or — because `$` also matches
just before a final newline — an 11-character id followed by one `'\n'`. -/

/-- A character of the class `[a-zA-Z0-9_-]`. -/
def isIdChar (c : Char) : Bool :=
  (c.isAlpha || c.isDigit) || (c = '_' || c = '-')

/-- `leadsWith m s` is true when the list `m` is an initial run of `s`. -/
def leadsWith : List Char → List Char → Bool
  | [], _ => true
  | _ :: _, [] => false
  | a :: as, b :: bs => a = b && leadsWith as bs

/-- Try each marker of the alternation in order at the current position;
on a match return the rest of the input after the marker. -/
def match_marker : List (List Char) → List Char → Option (List Char)
  | [], _ => none
  | m :: rest, s => if leadsWith m s then some (s.drop m.length) else match_marker rest s

/-- The capture group `([a-zA-Z0-9_-]{11})`: exactly 11 id-characters must
follow at the current position. -/
def take_id11 (s : List Char) : Option (List Char) :=
  let cand := s.take 11
  if cand.length = 11 && cand.all isIdChar then some cand else none

/-- Leftmost search of marker-plus-11-id-characters, like `re.search` on the
first pattern of `extract_video_id`. -/
def scan_markers (ms : List (List Char)) : List Char → Option (List Char)
  | [] => none
  | c :: cs =>
    match (match_marker ms (c :: cs)).bind take_id11 with
    | some found => some found
    | none => scan_markers ms cs

/-- The markers of the source regex `(?:v=|/v/|youtu\.be/|/embed/)`. -/
def code_markers : List (List Char) :=
  ["v=".toList, "/v/".toList, "youtu.be/".toList, "/embed/".toList]

/-- The markers as the claim C7 words them: `?v=` instead of the source's
bare `v=`. -/
def claim_markers : List (List Char) :=
  ["?v=".toList, "/v/".toList, "youtu.be/".toList, "/embed/".toList]

/-- The second pattern `^([a-zA-Z0-9_-]{11})$` of `extract_video_id`: the whole
input is 11 id-characters, or (since `$` matches before a trailing newline)
11 id-characters followed by a single `'\n'`; the captured group is returned. -/
def bare_match (s : List Char) : Option (List Char) :=
  if s.length = 11 && s.all isIdChar then some s
  else if s.length = 12 && (s.take 11).all isIdChar && s.drop 11 = ['\n'] then
    some (s.take 11)
  else none

/-- src/main.py lines 37-47: try the URL patterns in order, then the bare-id
pattern; raising `ValueError` (the spec's `InvalidIdentifierError`) is
modelled as `Except.error` with the source's message. -/
def extract_video_id (url : String) : Except String String :=
  match scan_markers code_markers url.toList with
  | some found => .ok (String.mk found)
  | none =>
    match bare_match url.toList with
    | some found => .ok (String.mk found)
    | none => .error ("Could not extract video ID from URL: " ++ url)

/-- Spec-side predicate: `found` occurs in `s` immediately after one of the
markers and is an 11-character run over the id alphabet. -/
def EmbeddedAt (ms : List (List Char)) (s found : List Char) : Prop :=
  ∃ pre m suf, m ∈ ms ∧ s = pre ++ m ++ found ++ suf ∧
    found.length = 11 ∧ found.all isIdChar = true

/-- Spec-side predicate: `s` matches one of the URL shapes of marker list
`ms`, i.e. some embedded id occurs in it. -/
def HasEmbedded (ms : List (List Char)) (s : List Char) : Prop :=
  ∃ found, EmbeddedAt ms s found

/-- No marker of the list is an initial run of another (so at any position of
any input at most one alternative of the alternation can match). -/
def markers_ok : List (List Char) → Bool
  | [] => true
  | m :: rest =>
    rest.all (fun m2 => !leadsWith m m2 && !leadsWith m2 m) && markers_ok rest

/-! ## Transcript retrieval pipeline (`fetch_transcript_with_retry`,
src/main.py lines 59-148) -/

/-- A caption track as listed by the provider (`TranscriptList` entry):
its language code and whether it is auto-generated. -/
structure Track where
  language_code : String
  is_generated : Bool
deriving DecidableEq

/-- A fetched snippet as converted by `snippet_to_dict` (src/main.py lines
50-56).  The source's float `start`/`duration` are modelled as rationals. -/
structure Segment where
  text : String
  start : Rat
  duration : Rat
deriving DecidableEq

/-- The transcript provider (youtube_transcript_api) as an oracle indexed by
the attempt number: listing tracks, translating a track, and fetching a
track's snippets can each succeed or raise an exception with a message. -/
structure TranscriptProvider where
  listTracks : Nat → String → Except String (List Track)
  translate : Nat → Track → String → Except String Track
  fetchTrack : Nat → Track → Except String (List Segment)

/-- `transcript_list.find_manually_created_transcript([lang])`: first listed
manually-created track in `lang` (the library raises `NoTranscriptFound`
otherwise, always swallowed by the source's bare `except:`). -/
def find_manually_created (ts : List Track) (lang : String) : Option Track :=
  ts.find? (fun t => !t.is_generated && t.language_code = lang)

/-- `transcript_list.find_generated_transcript([lang])`: first listed
auto-generated track in `lang`. -/
def find_generated (ts : List Track) (lang : String) : Option Track :=
  ts.find? (fun t => t.is_generated && t.language_code = lang)

/-- src/main.py lines 89-98: manual track in the target language, else
auto-generated track in the target language. -/
def find_direct (ts : List Track) (target_language : String) : Option Track :=
  match find_manually_created ts target_language with
  | some t => some t
  | none => find_generated ts target_language

/-- src/main.py lines 101-113: manual English track, else auto-generated
English track, else the first listed track (`for t in transcript_list: ...
break`; `None` when the list is empty). -/
def find_fallback (ts : List Track) : Option Track :=
  match find_manually_created ts "en" with
  | some t => some t
  | none =>
    match find_generated ts "en" with
    | some t => some t
    | none => ts.head?

/-- The track the attempt body settles on before translation: the direct
target-language lookup, else the fallback chain. -/
def selected_track (ts : List Track) (target_language : String) : Option Track :=
  match find_direct ts target_language with
  | some t => some t
  | none => find_fallback ts

/-- The selection cascade exactly as the spec words it (section 4.2 step 3,
five strategies in strict order, first success wins). -/
def spec_cascade (ts : List Track) (target_language : String) : Option Track :=
  match find_manually_created ts target_language with
  | some t => some t
  | none =>
    match find_generated ts target_language with
    | some t => some t
    | none =>
      match find_manually_created ts "en" with
      | some t => some t
      | none =>
        match find_generated ts "en" with
        | some t => some t
        | none => ts.head?

/-- `sub_at needle hay`: the needle occurs contiguously in the haystack,
like Python's `in` on strings. -/
def containsSub (needle : List Char) : List Char → Bool
  | [] => leadsWith needle []
  | c :: cs => leadsWith needle (c :: cs) || containsSub needle cs

/-- src/main.py line 141: `"not translatable" in str(e).lower()`.  The
message is lowercased character by character (ASCII suffices here). -/
def hasNotTranslatable (e : String) : Bool :=
  containsSub ("not translatable".toList) (e.toList.map Char.toLower)

/-- One iteration of the retry loop's `try` body (src/main.py lines 66-137):
list tracks, select a track by the cascade, translate when the fallback
track's language differs from the target (a translation failure is swallowed
and downgrades `actual_language` to the track's own language), then fetch
the segments.  Any escaping exception is the attempt's error.  The
User-Agent rotation (lines 69-80) only mutates headers and cannot raise
(its own failure is caught with a `ua.random` fallback), so it is a no-op
here. -/
def run_attempt (p : TranscriptProvider) (attempt : Nat) (video_id : String)
    (target_language : String) : Except String (List Segment × String) :=
  match p.listTracks attempt video_id with
  | .error e => .error e
  | .ok transcript_list =>
    match find_direct transcript_list target_language with
    | some transcript_obj =>
      match p.fetchTrack attempt transcript_obj with
      | .error e => .error e
      | .ok segments => .ok (segments, target_language)
    | none =>
      match find_fallback transcript_list with
      | none => .error "No transcript found"
      | some t0 =>
        if target_language ≠ t0.language_code then
          match p.translate attempt t0 target_language with
          | .ok t2 =>
            match p.fetchTrack attempt t2 with
            | .error e => .error e
            | .ok segments => .ok (segments, target_language)
          | .error _ =>
            match p.fetchTrack attempt t0 with
            | .error e => .error e
            | .ok segments => .ok (segments, t0.language_code)
        else
          match p.fetchTrack attempt t0 with
          | .error e => .error e
          | .ok segments => .ok (segments, target_language)

/-- Observable outcome of the retry loop: the returned value or the raised
exception (`Except.error none` is the degenerate `raise None` when the loop
never ran), the number of attempts entered, and the number of one-second
`time.sleep(1)` pauses taken. -/
structure RetryOutcome where
  result : Except (Option String) (List Segment × String)
  attempts : Nat
  sleeps : Nat

/-- The loop `for attempt in range(max_retries)` (src/main.py lines 65-148),
recursing on the number of remaining iterations; the current attempt index is
`max_retries - fuel`.  A success returns at once; an error whose message
contains "not translatable" is re-raised at once (line 141-142); any other
error is recorded as `last_error`, followed by `time.sleep(1)` when another
attempt remains (lines 145-146); an exhausted loop raises `last_error`. -/
def fetch_go (p : TranscriptProvider) (video_id target_language : String)
    (max_retries : Nat) : Nat → Option String → RetryOutcome
  | 0, last_error => ⟨.error last_error, 0, 0⟩
  | fuel + 1, _ =>
    match run_attempt p (max_retries - (fuel + 1)) video_id target_language with
    | .ok r => ⟨.ok r, 1, 0⟩
    | .error e =>
      if hasNotTranslatable e then ⟨.error (some e), 1, 0⟩
      else
        ⟨(fetch_go p video_id target_language max_retries fuel (some e)).result,
          (fetch_go p video_id target_language max_retries fuel (some e)).attempts + 1,
          (fetch_go p video_id target_language max_retries fuel (some e)).sleeps +
            (if max_retries - (fuel + 1) < max_retries - 1 then 1 else 0)⟩

/-- src/main.py lines 59-148, entered at attempt index 0 with no recorded
error. -/
def fetch_transcript_with_retry (p : TranscriptProvider)
    (video_id target_language : String) (max_retries : Nat) : RetryOutcome :=
  fetch_go p video_id target_language max_retries max_retries none

/-- The `/transcript` endpoint's success payload (src/main.py lines 181-187). -/
structure TranscriptResponse where
  transcript : String
  segments : List Segment
  language : String
  requested_language : String
  video_id : String
deriving DecidableEq

/-- The `/transcript` handler (src/main.py lines 150-195): a malformed id
surfaces the `ValueError` message; any failure of the retry pipeline is
surfaced as the fixed no-transcript message; a success joins the segment
texts with single spaces. -/
def transcript_endpoint (p : TranscriptProvider) (video_url target_language : String)
    (max_retries : Nat) : Except String TranscriptResponse :=
  match extract_video_id video_url with
  | .error msg => .error msg
  | .ok video_id =>
    match (fetch_transcript_with_retry p video_id target_language max_retries).result with
    | .error _ => .error "Sorry, a transcript isn't available for this video."
    | .ok (segments, actual_language) =>
      .ok { transcript := String.intercalate " " (segments.map (fun s => s.text))
            segments := segments
            language := actual_language
            requested_language := target_language
            video_id := video_id }

/-! ## YouTube search with caching cursor pagination (`search_youtube`,
src/main.py lines 197-359) -/

/-- A video record as assembled by `search_youtube_ytdlp`
(src/main.py lines 255-264). -/
structure Video where
  video_id : String
  title : String
  channel : String
  duration : String
  duration_seconds : Int
  views : Int
  thumbnail : String
  url : String
deriving DecidableEq

/-- A cached search session: `SEARCH_CACHE[search_id] = {"query": ...,
"videos": ...}` (src/main.py lines 321-324). -/
structure CacheEntry where
  query : String
  videos : List Video
deriving DecidableEq

/-- The `SEARCH_CACHE` contents as an association list; insertion conses, so
lookup sees the newest binding.  TTL expiry and LRU eviction (cachetools
internals) are not modelled: a session being absent — for whatever reason —
is the observable the endpoint reacts to. -/
abbrev SearchCache := List (String × CacheEntry)

/-- `SEARCH_CACHE.get(search_id)`. -/
def cacheGet : SearchCache → String → Option CacheEntry
  | [], _ => none
  | (k, v) :: rest, search_id =>
    if k = search_id then some v else cacheGet rest search_id

/-- `SEARCH_CACHE[search_id] = entry`. -/
def cachePut (cache : SearchCache) (search_id : String) (entry : CacheEntry) : SearchCache :=
  (search_id, entry) :: cache

/-- `BATCH_SIZE = 200` (src/main.py line 204). -/
def BATCH_SIZE : Nat := 200

/-- Digit run to its decimal value. -/
def digits_val (ds : List Char) : Nat :=
  ds.foldl (fun a c => a * 10 + (c.toNat - Char.toNat '0')) 0

/-- A nonempty all-digit run parses; anything else raises `ValueError`. -/
def int_digits (ds : List Char) : Option Int :=
  if !ds.isEmpty && ds.all Char.isDigit then some (digits_val ds) else none

/-- Python's `int(s)` on the strings that occur as cursor offsets: an
optional sign followed by digits.  (Surrounding whitespace and digit-group
underscores, which `int` also accepts, are not modelled — no claim depends
on them.) -/
def int_of_string : List Char → Option Int
  | '-' :: ds => (int_digits ds).map (fun n => -n)
  | '+' :: ds => int_digits ds
  | ds => int_digits ds

/-- `cursor.split(":")`: split at every colon. -/
def split_colon : List Char → List (List Char)
  | [] => [[]]
  | c :: cs =>
    match split_colon cs with
    | [] => [[]]
    | r :: rs => if c = ':' then [] :: r :: rs else (c :: r) :: rs

/-- `parse_cursor` (src/main.py lines 215-221): `parts[0]` and
`int(parts[1])`; a missing second part or a non-integer second part raises
`ValueError("Invalid cursor format")`, modelled as `none`. -/
def parse_cursor (cursor : String) : Option (String × Int) :=
  match split_colon cursor.toList with
  | p0 :: p1 :: _ => (int_of_string p1).map (fun off => (String.mk p0, off))
  | _ => none

/-- Cursor emission `f"{search_id}:{offset}"` (src/main.py lines 338, 343). -/
def mkCursor (search_id : String) (off : Int) : String :=
  search_id ++ ":" ++ toString off

/-- src/main.py lines 280-283: `limit` forced into `[1, 100]`. -/
def clamp_limit (limit : Int) : Int :=
  if limit < 1 then 1 else if limit > 100 then 100 else limit

/-- Python list slicing `l[i:j]` (step 1): each bound is normalised — a
negative index counts from the end, clamped at 0; a positive one is clamped
at the length. -/
def pySlice {α : Type} (l : List α) (i j : Int) : List α :=
  let n := l.length
  let lo : Nat := if i < 0 then ((n : Int) + i).toNat else min i.toNat n
  let hi : Nat := if j < 0 then ((n : Int) + j).toNat else min j.toNat n
  (l.take hi).drop lo

/-- The `/search` endpoint's failure modes: `HTTPException` details
"Cursor expired or invalid. Please start a new search." (lines 295-299, the
spec's `SessionExpiredError`), "Either 'query' or 'cursor' parameter is
required" (lines 327-331), and "Search failed: Invalid cursor format"
(`parse_cursor`'s `ValueError` caught at lines 357-359). -/
inductive SearchError where
  | cursorExpired
  | missingParam
  | invalidCursorFormat
deriving DecidableEq

/-- The `/search` success payload (src/main.py lines 345-353). -/
structure SearchResponse where
  query : String
  count : Nat
  offset : Int
  limit : Int
  next_cursor : Option String
  prev_cursor : Option String
  videos : List Video
deriving DecidableEq

/-- One `/search` call's observables: the HTTP payload or error, the cache
contents afterwards, and how many times the yt-dlp provider was invoked. -/
structure SearchOutcome where
  response : Except SearchError SearchResponse
  cache : SearchCache
  provider_calls : Nat

/-- src/main.py lines 334-353: slice the batch, compute the cursors
(`next_cursor` iff `offset + limit < len(all_videos)`, `prev_cursor` iff
`offset > 0` encoding `max(0, offset - limit)`), assemble the payload. -/
def build_page (query search_id : String) (all_videos : List Video)
    (offset limit : Int) : SearchResponse :=
  let videos := pySlice all_videos offset (offset + limit)
  let next_offset := offset + limit
  let next_cursor :=
    if next_offset < (all_videos.length : Int) then some (mkCursor search_id next_offset)
    else none
  let prev_cursor :=
    if offset > 0 then some (mkCursor search_id (max 0 (offset - limit)))
    else none
  { query := query
    count := videos.length
    offset := offset
    limit := limit
    next_cursor := next_cursor
    prev_cursor := prev_cursor
    videos := videos }

/-- The `/search` handler (src/main.py lines 269-359).  The provider
(`search_youtube_ytdlp` run in the executor) is an oracle
`query ↦ batch-limit ↦ videos`; `generate_search_id` (md5 of query and
wall-clock time) is modelled by passing the fresh id in.  The `if cursor:`
branch is tried first, so a supplied cursor always wins over a supplied
query; only when both are missing does the handler raise the
missing-parameter error. -/
def search_youtube (query : Option String) (cursor : Option String) (limit : Int)
    (cache : SearchCache) (provider : String → Nat → List Video)
    (new_search_id : String) : SearchOutcome :=
  let lim := clamp_limit limit
  match cursor with
  | some c =>
    match parse_cursor c with
    | none => ⟨.error .invalidCursorFormat, cache, 0⟩
    | some (search_id, offset) =>
      match cacheGet cache search_id with
      | none => ⟨.error .cursorExpired, cache, 0⟩
      | some cd => ⟨.ok (build_page cd.query search_id cd.videos offset lim), cache, 0⟩
  | none =>
    match query with
    | some q =>
      let all_videos := provider q BATCH_SIZE
      let cache2 := cachePut cache new_search_id ⟨q, all_videos⟩
      ⟨.ok (build_page q new_search_id all_videos 0 lim), cache2, 1⟩
    | none => ⟨.error .missingParam, cache, 0⟩

/-! ## Concrete fixtures used by the witness theorems -/

/-- A sample fetched segment. -/
def segW : Segment := ⟨"hello", 0, 1⟩

/-- A manually-created French track. -/
def trackFr : Track := ⟨"fr", false⟩

/-- An auto-generated English track. -/
def trackEnGen : Track := ⟨"en", true⟩

/-- A provider that fails transiently at every step of every attempt. -/
def pAllFail : TranscriptProvider :=
  ⟨fun _ _ => .error "boom", fun _ _ _ => .error "boom", fun _ _ => .error "boom"⟩

/-- A provider with one French manual track whose translation always fails. -/
def pTransFail : TranscriptProvider :=
  ⟨fun _ _ => .ok [trackFr], fun _ _ _ => .error "no translation", fun _ _ => .ok [segW]⟩

/-- A provider with one French manual track whose translation succeeds. -/
def pTransOk : TranscriptProvider :=
  ⟨fun _ _ => .ok [trackFr], fun _ _ lang => .ok ⟨lang, false⟩, fun _ _ => .ok [segW]⟩

/-- A provider whose segment fetch fails transiently at attempt 0 and with a
"not translatable" message from attempt 1 on. -/
def pMarker : TranscriptProvider :=
  ⟨fun _ _ => .ok [trackEnGen], fun _ _ _ => .error "x",
    fun k _ => if k = 0 then .error "boom" else .error "This video is Not Translatable"⟩

/-- Sample videos and cached search sessions. -/
def vW : Video := ⟨"id1", "t1", "c1", "0:01", 1, 5, "th1", "u1"⟩

/-- Second sample video. -/
def vW2 : Video := ⟨"id2", "t2", "c2", "0:02", 2, 6, "th2", "u2"⟩

/-- Third sample video. -/
def vW3 : Video := ⟨"id3", "t3", "c3", "0:03", 3, 7, "th3", "u3"⟩

/-- A one-video cached session under id "abc". -/
def cacheW : SearchCache := [("abc", ⟨"q0", [vW]⟩)]

/-- A three-video cached session under id "abc". -/
def cache3 : SearchCache := [("abc", ⟨"q0", [vW, vW2, vW3]⟩)]

/-- A provider returning one video for any query. -/
def provW : String → Nat → List Video := fun _ _ => [vW]

/-! ## Retry loop lemmas -/

/-- One-step unfolding of the loop with the remaining fuel kept symbolic. -/
theorem fetch_go_succ (p : TranscriptProvider) (video_id target_language : String)
    (max_retries f : Nat) (last_error : Option String) :
    fetch_go p video_id target_language max_retries (f + 1) last_error =
      match run_attempt p (max_retries - (f + 1)) video_id target_language with
      | .ok r => ⟨.ok r, 1, 0⟩
      | .error e =>
        if hasNotTranslatable e then ⟨.error (some e), 1, 0⟩
        else
          ⟨(fetch_go p video_id target_language max_retries f (some e)).result,
            (fetch_go p video_id target_language max_retries f (some e)).attempts + 1,
            (fetch_go p video_id target_language max_retries f (some e)).sleeps +
              (if max_retries - (f + 1) < max_retries - 1 then 1 else 0)⟩ := rfl

/-- When every remaining attempt fails with a transient error, the loop runs
out of fuel, sleeps between consecutive attempts, and raises the error of the
last attempt. -/
theorem fetch_go_all_fail (p : TranscriptProvider) (video_id target_language : String)
    (max_retries : Nat) (e : Nat → String)
    (hE : ∀ k, k < max_retries → run_attempt p k video_id target_language = .error (e k))
    (hT : ∀ k, k < max_retries → hasNotTranslatable (e k) = false) :
    ∀ fuel last_error, 1 ≤ fuel → fuel ≤ max_retries →
      fetch_go p video_id target_language max_retries fuel last_error =
        ⟨.error (some (e (max_retries - 1))), fuel, fuel - 1⟩ := by
  intro fuel
  induction fuel with
  | zero => intro last_error h1 _; exact absurd h1 (by omega)
  | succ f ih =>
    intro last_error _ h2
    have hk : max_retries - (f + 1) < max_retries := by omega
    have he := hE _ hk
    have ht := hT _ hk
    cases f with
    | zero =>
      have hsl : ¬ (max_retries - (0 + 1) < max_retries - 1) := by omega
      simp only [fetch_go, he, ht, Bool.false_eq_true, if_false, if_neg hsl]
    | succ f2 =>
      have hr := ih (some (e (max_retries - (f2 + 1 + 1)))) (by omega) (by omega)
      have hsl : max_retries - (f2 + 1 + 1) < max_retries - 1 := by omega
      rw [fetch_go_succ, he]
      simp only [ht, Bool.false_eq_true, if_false, hr, if_pos hsl]
      congr 1

/-- When attempts before index `d` fail transiently and attempt `d` fails
with a "not translatable" message, the loop re-raises at once after `d + 1`
attempts and `d` sleeps. -/
theorem fetch_go_marker (p : TranscriptProvider) (video_id target_language : String)
    (max_retries : Nat) (eStar : String) (hnt : hasNotTranslatable eStar = true) :
    ∀ fuel (d : Nat) (e : Nat → String), d < fuel → fuel ≤ max_retries →
      (∀ i, i < d →
          run_attempt p (max_retries - fuel + i) video_id target_language = .error (e i) ∧
          hasNotTranslatable (e i) = false) →
      run_attempt p (max_retries - fuel + d) video_id target_language = .error eStar →
      ∀ last_error, fetch_go p video_id target_language max_retries fuel last_error =
        ⟨.error (some eStar), d + 1, d⟩ := by
  intro fuel
  induction fuel with
  | zero => intro d e hd; exact absurd hd (by omega)
  | succ f ih =>
    intro d e hd hf hprev hstar last_error
    cases d with
    | zero =>
      rw [Nat.add_zero] at hstar
      simp only [fetch_go, hstar, hnt, if_true]
    | succ d2 =>
      have hp0 := hprev 0 (by omega)
      rw [Nat.add_zero] at hp0
      have ihr := ih d2 (fun i => e (i + 1)) (by omega) (by omega)
        (fun i hi => by
          have h := hprev (i + 1) (by omega)
          have ha : max_retries - (f + 1) + (i + 1) = max_retries - f + i := by omega
          rw [ha] at h
          exact h)
        (by
          have ha : max_retries - (f + 1) + (d2 + 1) = max_retries - f + d2 := by omega
          rw [ha] at hstar
          exact hstar)
        (some (e 0))
      have hsl : max_retries - (f + 1) < max_retries - 1 := by omega
      simp only [fetch_go, hp0.1, hp0.2, Bool.false_eq_true, if_false, ihr, if_pos hsl]

/-- Claim C1: if the transcript provider fails transiently on every attempt,
`fetch_transcript_with_retry` makes exactly `max_retries` attempts, pausing
one second between consecutive attempts (`max_retries - 1` sleeps), and then
exits by raising the last underlying failure — which the HTTP facade
surfaces as the terminal no-transcript-available message. -/
theorem c1_retry_bound (p : TranscriptProvider) (video_url video_id target_language : String)
    (max_retries : Nat) (e : Nat → String)
    (hmax : 1 ≤ max_retries)
    (hurl : extract_video_id video_url = .ok video_id)
    (hfail : ∀ k, k < max_retries → p.listTracks k video_id = .error (e k))
    (htrans : ∀ k, k < max_retries → hasNotTranslatable (e k) = false) :
    fetch_transcript_with_retry p video_id target_language max_retries =
      ⟨.error (some (e (max_retries - 1))), max_retries, max_retries - 1⟩ ∧
    transcript_endpoint p video_url target_language max_retries =
      .error "Sorry, a transcript isn't available for this video." := by
  have hE : ∀ k, k < max_retries → run_attempt p k video_id target_language = .error (e k) := by
    intro k hk
    simp [run_attempt, hfail k hk]
  have h : fetch_transcript_with_retry p video_id target_language max_retries =
      ⟨.error (some (e (max_retries - 1))), max_retries, max_retries - 1⟩ :=
    fetch_go_all_fail p video_id target_language max_retries e hE htrans
      max_retries none hmax (Nat.le_refl _)
  refine ⟨h, ?_⟩
  simp [transcript_endpoint, hurl, h]

/-- Witness for C1: three attempts against an always-failing provider give
three attempts, two sleeps, and the last error, surfaced by the endpoint as
the no-transcript message. -/
theorem c1_witness :
    fetch_transcript_with_retry pAllFail "dQw4w9WgXcQ" "en" 3 =
      ⟨.error (some "boom"), 3, 2⟩ ∧
    transcript_endpoint pAllFail "dQw4w9WgXcQ" "en" 3 =
      .error "Sorry, a transcript isn't available for this video." :=
  c1_retry_bound pAllFail "dQw4w9WgXcQ" "dQw4w9WgXcQ" "en" 3 (fun _ => "boom")
    (by omega) rfl (fun _ _ => rfl) (fun _ _ => rfl)

/-- Claim C2: the code's track selection equals the spec's five-step cascade
(manual target, generated target, manual "en", generated "en", first listed),
and on tracks {manual fr, generated en} with target "es" the generated
English track is selected. -/
theorem c2_cascade :
    (∀ (ts : List Track) (target_language : String),
        selected_track ts target_language = spec_cascade ts target_language) ∧
    selected_track [trackFr, trackEnGen] "es" = some trackEnGen := by
  constructor
  · intro ts tl
    cases h1 : find_manually_created ts tl <;>
      cases h2 : find_generated ts tl <;>
        cases h3 : find_manually_created ts "en" <;>
          cases h4 : find_generated ts "en" <;>
            simp [selected_track, find_direct, find_fallback, spec_cascade, h1, h2, h3, h4]
  · decide

/-- Claim C3: when the fallback track's language differs from the target and
translation fails, the same attempt returns the track's content in its own
language — one attempt, no sleeps — and when translation succeeds the result
language is the target language. -/
theorem c3_translation_fallback (p : TranscriptProvider) (video_id target_language : String)
    (max_retries : Nat) (ts : List Track) (t0 : Track)
    (hmax : 1 ≤ max_retries)
    (hlist : p.listTracks 0 video_id = .ok ts)
    (hdirect : find_direct ts target_language = none)
    (hfall : find_fallback ts = some t0)
    (hlang : target_language ≠ t0.language_code) :
    (∀ msg segs, p.translate 0 t0 target_language = .error msg →
        p.fetchTrack 0 t0 = .ok segs →
        fetch_transcript_with_retry p video_id target_language max_retries =
          ⟨.ok (segs, t0.language_code), 1, 0⟩) ∧
    (∀ t2 segs, p.translate 0 t0 target_language = .ok t2 →
        p.fetchTrack 0 t2 = .ok segs →
        fetch_transcript_with_retry p video_id target_language max_retries =
          ⟨.ok (segs, target_language), 1, 0⟩) := by
  obtain ⟨m, rfl⟩ : ∃ m, max_retries = m + 1 := ⟨max_retries - 1, by omega⟩
  have h0 : (m + 1) - (m + 1) = 0 := by omega
  constructor
  · intro msg segs htr hft
    have hrun : run_attempt p 0 video_id target_language = .ok (segs, t0.language_code) := by
      simp [run_attempt, hlist, hdirect, hfall, hlang, htr, hft]
    show fetch_go p video_id target_language (m + 1) (m + 1) none = _
    simp only [fetch_go, h0, hrun]
  · intro t2 segs htr hft
    have hrun : run_attempt p 0 video_id target_language = .ok (segs, target_language) := by
      simp [run_attempt, hlist, hdirect, hfall, hlang, htr, hft]
    show fetch_go p video_id target_language (m + 1) (m + 1) none = _
    simp only [fetch_go, h0, hrun]

/-- Witness for C3: a lone French manual track with target "es": failed
translation returns French in one attempt; successful translation returns
Spanish in one attempt. -/
theorem c3_witness :
    fetch_transcript_with_retry pTransFail "vid" "es" 5 = ⟨.ok ([segW], "fr"), 1, 0⟩ ∧
    fetch_transcript_with_retry pTransOk "vid" "es" 5 = ⟨.ok ([segW], "es"), 1, 0⟩ :=
  ⟨(c3_translation_fallback pTransFail "vid" "es" 5 [trackFr] trackFr
      (by omega) rfl (by decide) (by decide) (by decide)).1 "no translation" [segW] rfl rfl,
   (c3_translation_fallback pTransOk "vid" "es" 5 [trackFr] trackFr
      (by omega) rfl (by decide) (by decide) (by decide)).2 ⟨"es", false⟩ [segW] rfl rfl⟩

/-- Claim C9: an exception escaping an attempt with "not translatable" in its
message (case-insensitively) — from whichever step, here including segment
fetching — is re-raised at once with no further attempts, after the earlier,
transient failures were each retried with a pause. -/
theorem c9_marker_short_circuit (p : TranscriptProvider)
    (video_id target_language : String) (max_retries k : Nat)
    (e : Nat → String) (eStar : String)
    (hk : k < max_retries)
    (hprev : ∀ j, j < k →
        run_attempt p j video_id target_language = .error (e j) ∧
        hasNotTranslatable (e j) = false)
    (hstar : run_attempt p k video_id target_language = .error eStar)
    (hnt : hasNotTranslatable eStar = true) :
    fetch_transcript_with_retry p video_id target_language max_retries =
      ⟨.error (some eStar), k + 1, k⟩ := by
  have hz : max_retries - max_retries = 0 := by omega
  exact fetch_go_marker p video_id target_language max_retries eStar hnt
    max_retries k e hk (Nat.le_refl _)
    (fun i hi => by rw [hz, Nat.zero_add]; exact hprev i hi)
    (by rw [hz, Nat.zero_add]; exact hstar) none

/-- Witness for C9: the segment fetch fails transiently at attempt 0, then
fails with a mixed-case "Not Translatable" message at attempt 1; the loop
stops after two attempts and one sleep, re-raising that message. -/
theorem c9_witness :
    fetch_transcript_with_retry pMarker "vid" "en" 5 =
      ⟨.error (some "This video is Not Translatable"), 2, 1⟩ :=
  c9_marker_short_circuit pMarker "vid" "en" 5 1 (fun _ => "boom")
    "This video is Not Translatable" (by omega)
    (fun j hj => by
      have hj0 : j = 0 := by omega
      subst hj0
      exact ⟨rfl, rfl⟩)
    rfl rfl

/-! ## Search pagination theorems -/

/-- For non-negative bounds, the Python slice `l[i : i+k]` is drop-then-take. -/
theorem pySlice_nonneg {α : Type} (l : List α) (i k : Int) (hi : 0 ≤ i) (hk : 0 ≤ k) :
    pySlice l i (i + k) = (l.drop i.toNat).take k.toNat := by
  simp only [pySlice]
  rw [if_neg (by omega), if_neg (by omega), List.drop_take]
  rcases le_or_lt i.toNat l.length with hle | hgt
  · rw [Nat.min_eq_left hle]
    refine List.take_eq_take.mpr ?_
    simp only [List.length_drop]
    omega
  · have h1 : l.length ≤ i.toNat := by omega
    rw [Nat.min_eq_right h1, List.drop_length, List.drop_eq_nil_of_le h1]
    simp

/-- Claim C4: against a live session, a cursor-driven page request returns
`videos[offset : offset+limit]` with the limit clamped into `[1, 100]`;
`next_cursor` is present iff `offset + limit < len(videos)`, and
`prev_cursor` is present iff `offset > 0`, encoding `max(0, offset-limit)`. -/
theorem c4_pagination (query : Option String) (c : String) (limit : Int)
    (cache : SearchCache) (provider : String → Nat → List Video)
    (new_search_id search_id : String) (offset : Int) (entry : CacheEntry)
    (hparse : parse_cursor c = some (search_id, offset))
    (hoff : 0 ≤ offset)
    (hhit : cacheGet cache search_id = some entry) :
    ∃ resp, (search_youtube query (some c) limit cache provider new_search_id).response =
        .ok resp ∧
      resp.videos = (entry.videos.drop offset.toNat).take (clamp_limit limit).toNat ∧
      resp.limit = clamp_limit limit ∧
      1 ≤ clamp_limit limit ∧ clamp_limit limit ≤ 100 ∧
      (resp.next_cursor.isSome = true ↔
        offset + clamp_limit limit < (entry.videos.length : Int)) ∧
      (resp.prev_cursor.isSome = true ↔ 0 < offset) ∧
      (0 < offset →
        resp.prev_cursor = some (mkCursor search_id (max 0 (offset - clamp_limit limit)))) := by
  have hcl : 1 ≤ clamp_limit limit ∧ clamp_limit limit ≤ 100 := by
    unfold clamp_limit
    split_ifs <;> omega
  refine ⟨build_page entry.query search_id entry.videos offset (clamp_limit limit),
    ?_, ?_, ?_, hcl.1, hcl.2, ?_, ?_, ?_⟩
  · simp [search_youtube, hparse, hhit]
  · simp only [build_page]
    exact pySlice_nonneg entry.videos offset (clamp_limit limit) hoff (by omega)
  · simp [build_page]
  · by_cases h : offset + clamp_limit limit < (entry.videos.length : Int) <;> simp [build_page, h]
  · by_cases h : 0 < offset <;> simp [build_page, h]
  · intro h
    simp [build_page, h]

/-- Witness for C4: a three-video session paged with cursor "abc:1" and
limit 1 returns the middle video, a next cursor, and a previous cursor at
offset 0. -/
theorem c4_witness :
    ∃ resp, (search_youtube none (some "abc:1") 1 cache3 provW "zzz").response = .ok resp ∧
      resp.videos = (([vW, vW2, vW3].drop (1 : Int).toNat).take (clamp_limit 1).toNat) ∧
      resp.limit = clamp_limit 1 ∧
      1 ≤ clamp_limit 1 ∧ clamp_limit 1 ≤ 100 ∧
      (resp.next_cursor.isSome = true ↔
        (1 : Int) + clamp_limit 1 < (([vW, vW2, vW3] : List Video).length : Int)) ∧
      (resp.prev_cursor.isSome = true ↔ (0 : Int) < 1) ∧
      ((0 : Int) < 1 →
        resp.prev_cursor = some (mkCursor "abc" (max 0 (1 - clamp_limit 1)))) :=
  c4_pagination none "abc:1" 1 cache3 provW "zzz" "abc" 1 ⟨"q0", [vW, vW2, vW3]⟩
    rfl (by omega) rfl

/-- Claim C5: a well-formed cursor whose session id is absent from the cache
fails with the session-expired error (telling the caller to restart) and
never yields a result slice. -/
theorem c5_session_expired (query : Option String) (c : String) (limit : Int)
    (cache : SearchCache) (provider : String → Nat → List Video)
    (new_search_id search_id : String) (offset : Int)
    (hparse : parse_cursor c = some (search_id, offset))
    (hmiss : cacheGet cache search_id = none) :
    (search_youtube query (some c) limit cache provider new_search_id).response =
      .error .cursorExpired := by
  simp [search_youtube, hparse, hmiss]

/-- Witness for C5: cursor "zzz:0" against a cache holding only session
"abc" yields the session-expired error. -/
theorem c5_witness :
    (search_youtube none (some "zzz:0") 50 cacheW provW "nid").response =
      .error .cursorExpired :=
  c5_session_expired none "zzz:0" 50 cacheW provW "nid" "zzz" 0 rfl rfl

/-- Claim C6 (amended): absence of both `query` and `cursor` is a client
error, but supplying both is accepted — the cursor branch is taken first, so
the call behaves exactly as if the query parameter were absent. -/
theorem c6_amended :
    (∀ (limit : Int) (cache : SearchCache) (provider : String → Nat → List Video)
        (new_search_id : String),
        (search_youtube none none limit cache provider new_search_id).response =
          .error .missingParam) ∧
    (∀ (q c : String) (limit : Int) (cache : SearchCache)
        (provider : String → Nat → List Video) (new_search_id : String),
        search_youtube (some q) (some c) limit cache provider new_search_id =
          search_youtube none (some c) limit cache provider new_search_id) :=
  ⟨fun _ _ _ _ => rfl, fun _ _ _ _ _ _ => rfl⟩

/-- Counterexample to C6 as stated: supplying BOTH a query and a cursor is
accepted — with a live session "abc" the call returns a page (the cursor
wins and the stored query "q0" replaces the supplied one), instead of being
rejected. -/
theorem c6_counterexample :
    (search_youtube (some "hello") (some "abc:0") 50 cacheW provW "zzz").response =
      .ok { query := "q0", count := 1, offset := 0, limit := 50,
            next_cursor := none, prev_cursor := none, videos := [vW] } := rfl

/-- Claim C8: paging a live session performs zero provider calls, leaves the
cache unchanged, and repeating the same call against the resulting cache
returns the identical outcome. -/
theorem c8_idempotent (query : Option String) (c : String) (limit : Int)
    (cache : SearchCache) (provider : String → Nat → List Video)
    (new_search_id search_id : String) (offset : Int) (entry : CacheEntry)
    (hparse : parse_cursor c = some (search_id, offset))
    (hhit : cacheGet cache search_id = some entry) :
    (search_youtube query (some c) limit cache provider new_search_id).provider_calls = 0 ∧
    (search_youtube query (some c) limit cache provider new_search_id).cache = cache ∧
    search_youtube query (some c) limit
        (search_youtube query (some c) limit cache provider new_search_id).cache
        provider new_search_id =
      search_youtube query (some c) limit cache provider new_search_id := by
  have hcache : (search_youtube query (some c) limit cache provider new_search_id).cache =
      cache := by
    simp [search_youtube, hparse, hhit]
  exact ⟨by simp [search_youtube, hparse, hhit], hcache, by rw [hcache]⟩

/-- Witness for C8: paging session "abc" twice with cursor "abc:0". -/
theorem c8_witness :
    (search_youtube none (some "abc:0") 50 cacheW provW "nid").provider_calls = 0 ∧
    (search_youtube none (some "abc:0") 50 cacheW provW "nid").cache = cacheW ∧
    search_youtube none (some "abc:0") 50
        (search_youtube none (some "abc:0") 50 cacheW provW "nid").cache provW "nid" =
      search_youtube none (some "abc:0") 50 cacheW provW "nid" :=
  c8_idempotent none "abc:0" 50 cacheW provW "nid" "abc" 0 ⟨"q0", [vW]⟩ rfl rfl

/-- Claim C10: a cursor offset at or past the end of a live session's batch
does not fail: the page is empty with count 0 and no next cursor, while the
previous cursor is still computed as `max(0, offset - limit)` when
`offset > 0`. -/
theorem c10_offset_beyond (query : Option String) (c : String) (limit : Int)
    (cache : SearchCache) (provider : String → Nat → List Video)
    (new_search_id search_id : String) (offset : Int) (entry : CacheEntry)
    (hparse : parse_cursor c = some (search_id, offset))
    (hhit : cacheGet cache search_id = some entry)
    (hbig : (entry.videos.length : Int) ≤ offset) :
    ∃ resp, (search_youtube query (some c) limit cache provider new_search_id).response =
        .ok resp ∧
      resp.videos = [] ∧ resp.count = 0 ∧ resp.next_cursor = none ∧
      (0 < offset →
        resp.prev_cursor = some (mkCursor search_id (max 0 (offset - clamp_limit limit)))) := by
  have hoff : 0 ≤ offset := le_trans (Int.natCast_nonneg _) hbig
  have hcl : 1 ≤ clamp_limit limit ∧ clamp_limit limit ≤ 100 := by
    unfold clamp_limit
    split_ifs <;> omega
  have hvids : pySlice entry.videos offset (offset + clamp_limit limit) = [] := by
    rw [pySlice_nonneg entry.videos offset (clamp_limit limit) hoff (by omega),
      List.drop_eq_nil_of_le (by omega)]
    simp
  have hnext : ¬ (offset + clamp_limit limit < (entry.videos.length : Int)) := by omega
  refine ⟨build_page entry.query search_id entry.videos offset (clamp_limit limit),
    ?_, ?_, ?_, ?_, ?_⟩
  · simp [search_youtube, hparse, hhit]
  · simp only [build_page]
    exact hvids
  · simp [build_page, hvids]
  · simp [build_page, hnext]
  · intro h
    simp [build_page, h]

/-- Witness for C10: cursor "abc:5" against the three-video session returns
an empty page with a previous cursor at `max(0, 5 - 1) = 4`. -/
theorem c10_witness :
    ∃ resp, (search_youtube none (some "abc:5") 1 cache3 provW "zzz").response = .ok resp ∧
      resp.videos = [] ∧ resp.count = 0 ∧ resp.next_cursor = none ∧
      ((0 : Int) < 5 → resp.prev_cursor = some (mkCursor "abc" (max 0 (5 - clamp_limit 1)))) :=
  c10_offset_beyond none "abc:5" 1 cache3 provW "zzz" "abc" 5 ⟨"q0", [vW, vW2, vW3]⟩
    rfl rfl (by decide)

/-! ## Scanner lemmas for the identity extractor -/

/-- A list is an initial run of itself followed by anything. -/
theorem leadsWith_self (m rest : List Char) : leadsWith m (m ++ rest) = true := by
  induction m with
  | nil => rfl
  | cons a as ih => simp [leadsWith, ih]

/-- An initial run decomposes the string it leads. -/
theorem leadsWith_eq (m : List Char) :
    ∀ s, leadsWith m s = true → s = m ++ s.drop m.length := by
  induction m with
  | nil => intro s _; simp
  | cons a as ih =>
    intro s h
    cases s with
    | nil => simp [leadsWith] at h
    | cons b bs =>
      simp only [leadsWith, Bool.and_eq_true, decide_eq_true_eq] at h
      obtain ⟨rfl, h2⟩ := h
      simp only [List.length_cons, List.drop_succ_cons, List.cons_append]
      exact congrArg (List.cons a) (ih bs h2)

/-- Two lists leading the same string are comparable: one leads the other. -/
theorem leadsWith_mutual : ∀ (m m2 s : List Char), leadsWith m s = true →
    leadsWith m2 s = true → leadsWith m m2 = true ∨ leadsWith m2 m = true := by
  intro m
  induction m with
  | nil => intro m2 s _ _; left; rfl
  | cons a as ih =>
    intro m2 s h1 h2
    cases m2 with
    | nil => right; rfl
    | cons b bs =>
      cases s with
      | nil => simp [leadsWith] at h1
      | cons c cs =>
        simp only [leadsWith, Bool.and_eq_true, decide_eq_true_eq] at h1 h2
        rcases ih bs cs h1.2 h2.2 with h | h
        · left; simp [leadsWith, h1.1, h2.1, h]
        · right; simp [leadsWith, h1.1, h2.1, h]

/-- A successful marker match decomposes the input after some listed marker. -/
theorem match_marker_sound : ∀ (ms : List (List Char)) (s rest : List Char),
    match_marker ms s = some rest → ∃ m, m ∈ ms ∧ s = m ++ rest := by
  intro ms
  induction ms with
  | nil => intro s rest h; simp [match_marker] at h
  | cons m0 tail ih =>
    intro s rest h
    by_cases hl : leadsWith m0 s = true
    · simp only [match_marker, if_pos hl] at h
      injection h with h
      subst h
      exact ⟨m0, List.mem_cons_self m0 tail, leadsWith_eq m0 s hl⟩
    · simp only [match_marker, if_neg hl] at h
      obtain ⟨m, hm, he⟩ := ih s rest h
      exact ⟨m, List.mem_cons_of_mem _ hm, he⟩

/-- Unpacking `markers_ok` at a cons cell. -/
theorem markers_ok_head (m0 : List Char) (tail : List (List Char))
    (h : markers_ok (m0 :: tail) = true) :
    (∀ m ∈ tail, leadsWith m0 m = false ∧ leadsWith m m0 = false) ∧
      markers_ok tail = true := by
  simp only [markers_ok, Bool.and_eq_true, List.all_eq_true] at h
  refine ⟨fun m hm => ?_, h.2⟩
  have h2 := h.1 m hm
  simp only [Bool.and_eq_true, Bool.not_eq_true'] at h2
  exact h2

/-- With mutually non-leading markers, the marker actually present at the
current position is matched, whatever its position in the list. -/
theorem match_marker_complete : ∀ (ms : List (List Char)) (m rest : List Char),
    markers_ok ms = true → m ∈ ms → match_marker ms (m ++ rest) = some rest := by
  intro ms
  induction ms with
  | nil => intro m rest _ hm; simp at hm
  | cons m0 tail ih =>
    intro m rest hok hm
    obtain ⟨hpairs, htail⟩ := markers_ok_head m0 tail hok
    rcases List.mem_cons.mp hm with rfl | hm2
    · simp only [match_marker]
      rw [if_pos (leadsWith_self m rest), List.drop_left]
    · have hno : leadsWith m0 (m ++ rest) = false := by
        cases hb : leadsWith m0 (m ++ rest) with
        | false => rfl
        | true =>
          rcases leadsWith_mutual m0 m (m ++ rest) hb (leadsWith_self m rest) with h | h
          · rw [(hpairs m hm2).1] at h; cases h
          · rw [(hpairs m hm2).2] at h; cases h
      simp only [match_marker]
      rw [if_neg (by simp [hno])]
      exact ih m rest htail hm2

/-- The capture group succeeds on an 11-character id run. -/
theorem take_id11_of (found suf : List Char) (h1 : found.length = 11)
    (h2 : found.all isIdChar = true) : take_id11 (found ++ suf) = some found := by
  have ht : (found ++ suf).take 11 = found := List.take_left' h1
  simp [take_id11, ht, h1, h2]

/-- A successful capture is an 11-character id run and an initial run of the
position. -/
theorem take_id11_sound (s found : List Char) (h : take_id11 s = some found) :
    found.length = 11 ∧ found.all isIdChar = true ∧ s = found ++ s.drop 11 := by
  simp only [take_id11] at h
  by_cases hc : ((s.take 11).length = 11 && (s.take 11).all isIdChar) = true
  · rw [if_pos hc] at h
    injection h with h
    subst h
    simp only [Bool.and_eq_true, decide_eq_true_eq] at hc
    exact ⟨hc.1, hc.2, (List.take_append_drop 11 s).symm⟩
  · rw [if_neg hc] at h
    cases h

/-- Soundness: whatever the scan returns is an id embedded after a listed
marker. -/
theorem scan_markers_sound : ∀ (ms : List (List Char)) (s f : List Char),
    scan_markers ms s = some f → EmbeddedAt ms s f := by
  intro ms s
  induction s with
  | nil => intro f h; simp [scan_markers] at h
  | cons c cs ih =>
    intro f h
    simp only [scan_markers] at h
    cases hb : (match_marker ms (c :: cs)).bind take_id11 with
    | some g =>
      rw [hb] at h
      have hgf : g = f := by simpa using h
      rw [← hgf]
      obtain ⟨rest, hmm, htk⟩ := Option.bind_eq_some.mp hb
      obtain ⟨m, hm, hsm⟩ := match_marker_sound ms (c :: cs) rest hmm
      obtain ⟨hlen, hall, hrest⟩ := take_id11_sound rest g htk
      refine ⟨[], m, rest.drop 11, hm, ?_, hlen, hall⟩
      have hdec : c :: cs = m ++ (g ++ rest.drop 11) := by rw [← hrest]; exact hsm
      simpa [List.append_assoc] using hdec
    | none =>
      rw [hb] at h
      simp only at h
      obtain ⟨pre, m, suf, hm, he, hlen, hall⟩ := ih f h
      exact ⟨c :: pre, m, suf, hm, by simp [he], hlen, hall⟩

/-- Completeness: if an id is embedded after a listed marker somewhere, the
scan succeeds. -/
theorem scan_markers_complete (ms : List (List Char)) (hok : markers_ok ms = true) :
    ∀ (pre m f suf : List Char), m ∈ ms → f.length = 11 → f.all isIdChar = true →
      (scan_markers ms (pre ++ m ++ f ++ suf)).isSome = true := by
  intro pre
  induction pre with
  | nil =>
    intro m f suf hm hlen hall
    have hs : ([] : List Char) ++ m ++ f ++ suf = m ++ (f ++ suf) := by
      simp [List.append_assoc]
    rw [hs]
    have hmm : match_marker ms (m ++ (f ++ suf)) = some (f ++ suf) :=
      match_marker_complete ms m (f ++ suf) hok hm
    have htk : take_id11 (f ++ suf) = some f := take_id11_of f suf hlen hall
    cases hcase : m ++ (f ++ suf) with
    | nil =>
      exfalso
      have hl := congrArg List.length hcase
      simp [hlen] at hl
    | cons c cs =>
      rw [hcase] at hmm
      simp [scan_markers, hmm, htk]
  | cons c pre2 ih =>
    intro m f suf hm hlen hall
    have hs : (c :: pre2) ++ m ++ f ++ suf = c :: (pre2 ++ m ++ f ++ suf) := by simp
    rw [hs]
    simp only [scan_markers]
    cases hb : (match_marker ms (c :: (pre2 ++ m ++ f ++ suf))).bind take_id11 with
    | some g => rfl
    | none => exact ih m f suf hm hlen hall

/-- A scan hit forces one listed marker to consist of characters drawn from
any character class covering the whole input. -/
theorem scan_markers_all_pred (ms : List (List Char)) (p : Char → Bool) (s f : List Char)
    (hall : s.all p = true) (h : scan_markers ms s = some f) :
    ∃ m, m ∈ ms ∧ m.all p = true := by
  obtain ⟨pre, m, suf, hm, he, _, _⟩ := scan_markers_sound ms s f h
  refine ⟨m, hm, ?_⟩
  rw [he] at hall
  simp only [List.all_append, Bool.and_eq_true] at hall
  exact hall.1.1.2

/-- Every source marker contains a character outside the covering class, so
the scan misses inputs drawn entirely from the class. -/
theorem scan_code_none (p : Char → Bool) (hmk : ∀ m ∈ code_markers, m.all p = false)
    (s : List Char) (hall : s.all p = true) : scan_markers code_markers s = none := by
  cases hscan : scan_markers code_markers s with
  | none => rfl
  | some f =>
    obtain ⟨m, hm, hmp⟩ := scan_markers_all_pred code_markers p s f hall hscan
    rw [hmk m hm] at hmp
    cases hmp

/-- Claim C7 (amended): any input embedding an 11-character id after one of
the source's markers (`v=` anywhere — not only `?v=` — `/v/`, `youtu.be/`,
`/embed/`) yields such an embedded id; a bare 11-character id is returned
unchanged; an 11-character id with a single trailing newline is also
accepted (the `$` anchor matches before a final newline) returning the id;
every remaining input fails with the `InvalidIdentifierError` message. -/
theorem c7_amended :
    (∀ url : String, HasEmbedded code_markers url.toList →
        ∃ found, extract_video_id url = .ok (String.mk found) ∧
          EmbeddedAt code_markers url.toList found) ∧
    (∀ url : String, url.toList.length = 11 → url.toList.all isIdChar = true →
        extract_video_id url = .ok url) ∧
    (∀ url : String, url.toList.length = 12 → (url.toList.take 11).all isIdChar = true →
        url.toList.drop 11 = ['\n'] →
        extract_video_id url = .ok (String.mk (url.toList.take 11))) ∧
    (∀ url : String, ¬ HasEmbedded code_markers url.toList →
        bare_match url.toList = none →
        extract_video_id url = .error ("Could not extract video ID from URL: " ++ url)) := by
  have hok : markers_ok code_markers = true := by decide
  refine ⟨?_, ?_, ?_, ?_⟩
  · intro url h
    obtain ⟨f, pre, m, suf, hm, he, hlen, hall⟩ := h
    have hsome := scan_markers_complete code_markers hok pre m f suf hm hlen hall
    rw [← he] at hsome
    obtain ⟨g, hg⟩ := Option.isSome_iff_exists.mp hsome
    refine ⟨g, ?_, scan_markers_sound code_markers url.toList g hg⟩
    simp only [extract_video_id, hg]
  · intro url h1 h2
    have hmk : ∀ m ∈ code_markers, m.all isIdChar = false := by decide
    have hscan := scan_code_none isIdChar hmk url.toList h2
    have hbare : bare_match url.toList = some url.toList := by
      have hc : (url.toList.length = 11 && url.toList.all isIdChar) = true := by
        rw [h1, h2]
        rfl
      simp only [bare_match]
      rw [if_pos hc]
    simp only [extract_video_id, hscan, hbare]
    rfl
  · intro url h1 h2 h3
    have hmk : ∀ m ∈ code_markers, m.all (fun ch => isIdChar ch || ch = '\n') = false := by
      decide
    have hall : url.toList.all (fun ch => isIdChar ch || ch = '\n') = true := by
      have htake : (url.toList.take 11).all (fun ch => isIdChar ch || ch = '\n') = true := by
        simp only [List.all_eq_true] at h2 ⊢
        intro x hx
        simp [h2 x hx]
      have hglue : (url.toList.take 11 ++ url.toList.drop 11).all
          (fun ch => isIdChar ch || ch = '\n') = true := by
        rw [List.all_append, htake, h3]
        decide
      simpa [List.take_append_drop] using hglue
    have hscan := scan_code_none _ hmk url.toList hall
    have hbare : bare_match url.toList = some (url.toList.take 11) := by
      have hc1 : (url.toList.length = 11 && url.toList.all isIdChar) = false := by
        rw [h1]
        rfl
      have hc2 : (url.toList.length = 12 && (url.toList.take 11).all isIdChar &&
          url.toList.drop 11 = ['\n']) = true := by
        rw [h1, h2, h3]
        rfl
      simp only [bare_match]
      rw [if_neg (by rw [hc1]; exact Bool.false_ne_true), if_pos hc2]
    simp only [extract_video_id, hscan, hbare]
  · intro url hne hbare
    have hscan : scan_markers code_markers url.toList = none := by
      cases hscan : scan_markers code_markers url.toList with
      | none => rfl
      | some f =>
        exact absurd ⟨f, scan_markers_sound code_markers url.toList f hscan⟩ hne
    simp only [extract_video_id, hscan, hbare]

/-- Counterexample to C7 as stated: "av=abcdefghijk" contains none of the
claimed URL shapes (`?v=`, `/v/`, `youtu.be/`, `/embed/`) and is not a bare
11-character id, yet `extract_video_id` succeeds on it — the source regex
matches `v=` anywhere, so the claimed "everything else fails" is false. -/
theorem c7_counterexample :
    extract_video_id "av=abcdefghijk" = .ok "abcdefghijk" ∧
    ¬ HasEmbedded claim_markers ("av=abcdefghijk".toList) ∧
    bare_match ("av=abcdefghijk".toList) = none := by
  refine ⟨rfl, ?_, by decide⟩
  intro h
  obtain ⟨f, pre, m, suf, hm, he, hlen, hall⟩ := h
  have hok : markers_ok claim_markers = true := by decide
  have hsome := scan_markers_complete claim_markers hok pre m f suf hm hlen hall
  rw [← he] at hsome
  exact absurd hsome (by decide)

/-- Witness for C7 (amended): a watch URL yields its embedded id, and a bare
id is returned unchanged. -/
theorem c7_witness :
    (∃ found, extract_video_id "watch?v=dQw4w9WgXcQ" = .ok (String.mk found) ∧
        EmbeddedAt code_markers ("watch?v=dQw4w9WgXcQ".toList) found) ∧
    extract_video_id "dQw4w9WgXcQ" = .ok "dQw4w9WgXcQ" :=
  ⟨c7_amended.1 "watch?v=dQw4w9WgXcQ"
      ⟨"dQw4w9WgXcQ".toList, "watch?".toList, "v=".toList, [],
        by decide, by decide, by decide, by decide⟩,
    c7_amended.2.1 "dQw4w9WgXcQ" (by decide) (by decide)⟩

end YT
